import Mathlib

/-!
Verification of the conversation-memory and context-analysis engine of the
realtime-agents repository.  The definitions below are shallow embeddings of
the TypeScript source: JavaScript strings are modelled through their
character lists, numbers that hold counts as `Nat`, millisecond clock values
as `Nat` parameters supplied by the caller (`Date.now()`), and fractional
scores as `ℚ`.  Each definition names the source function it embeds.
-/

namespace RealtimeAgents

/-! ### JavaScript primitive semantics -/

/-- JavaScript `a || b` for an optional number: `undefined` and `0` are falsy. -/
def jsOrNat (o : Option Nat) (d : Nat) : Nat :=
  match o with
  | none => d
  | some n => if n = 0 then d else n

/-- JavaScript `a || b` for an optional string: `undefined` and `""` are falsy. -/
def jsOrStr (o : Option String) (d : String) : String :=
  match o with
  | none => d
  | some s => if s = "" then d else s

/-- JavaScript `a || b` for an optional boolean: `undefined` and `false` are falsy. -/
def jsOrBool (o : Option Bool) (d : Bool) : Bool :=
  match o with
  | none => d
  | some b => if b then b else d

/-- JavaScript truthiness of an optional string (`undefined` and `""` are falsy). -/
def jsTruthy (o : Option String) : Bool :=
  match o with
  | none => false
  | some s => s ≠ ""

/-- JavaScript `arr.slice(-n)` for a non-negative count `n`: the last `n`
elements, except that `slice(-0)` is `slice(0)`, the whole array. -/
def jsSliceNeg (l : List α) (n : Nat) : List α :=
  if n = 0 then l else l.drop (l.length - n)

/-- JavaScript `str.substring(0, n)`: the first `n` characters. -/
def jsSubstring0 (s : String) (n : Nat) : String :=
  String.mk (s.data.take n)

/-- Auxiliary splitter for `jsSplitWs`.  `skipping` records that we are inside
a whitespace run whose preceding token has already been emitted; `cur` holds
the characters of the token being built, in reverse. -/
def jsSplitWsAux : List Char → Bool → List Char → List String
  | [], skipping, cur =>
      if skipping then [""] else [String.mk cur.reverse]
  | c :: rest, skipping, cur =>
      if skipping then
        if c.isWhitespace then jsSplitWsAux rest true []
        else jsSplitWsAux rest false [c]
      else
        if c.isWhitespace then String.mk cur.reverse :: jsSplitWsAux rest true []
        else jsSplitWsAux rest false (c :: cur)

/-- JavaScript `str.split(/\s+/)`: split on maximal whitespace runs.  A leading
(resp. trailing) whitespace run contributes an empty first (resp. last)
element, and `"".split(/\s+/)` is `[""]`. -/
def jsSplitWs (s : String) : List String :=
  jsSplitWsAux s.data false []

/-- JavaScript `str.toLowerCase()` (ASCII case mapping). -/
def jsToLower (s : String) : String :=
  String.mk (s.data.map Char.toLower)

/-- JavaScript `str.includes(sub)`: substring containment. -/
def jsIncludes (s sub : String) : Bool :=
  (List.range (s.data.length + 1)).any (fun i => sub.data.isPrefixOf (s.data.drop i))

/-- JavaScript `Set` insertion order collapsed to a list: keep the first
occurrence of each element. -/
def jsSetDedup (l : List String) : List String :=
  l.foldl (fun acc x => if acc.contains x then acc else acc ++ [x]) []

/-! ### `Message` (src/app/lib/realtimeConnection.ts) -/

/-- The role union of `Message` in realtimeConnection.ts. -/
inductive Role where
  | system
  | user
  | assistant
deriving DecidableEq, Repr

/-- `Message` from realtimeConnection.ts: `{role, content}`. -/
structure Message where
  role : Role
  content : String
deriving DecidableEq, Repr

/-! ### `ConversationMemoryChain` (src/app/agentConfigs/productResearch/index.ts) -/

/-- `MemoryState` from productResearch/index.ts. -/
structure MemoryState where
  messages : List Message
  summary : Option String
  keyPoints : List String
  lastSummarizedAt : Nat
deriving DecidableEq, Repr

/-- Constructor options of `ConversationMemoryChain`. -/
structure ChainOptions where
  maxMessages : Option Nat
  summarizeThreshold : Option Nat
  summaryPrompt : Option String
deriving Repr

/-- A `ConversationMemoryChain` instance: the three configuration fields
fixed by the constructor plus the mutable `MemoryState`. -/
structure Chain where
  maxMessages : Nat
  summarizeThreshold : Nat
  summaryPrompt : String
  state : MemoryState
deriving DecidableEq, Repr

/-- The `ConversationMemoryChain` constructor: each option defaults through
JavaScript `||` (`maxMessages || 10`, `summarizeThreshold || 5`, the fixed
instruction string for `summaryPrompt`); `lastSummarizedAt` is `Date.now()`,
passed here as `now`. -/
def mkChain (options : ChainOptions) (now : Nat) : Chain :=
  { maxMessages := jsOrNat options.maxMessages 10
    summarizeThreshold := jsOrNat options.summarizeThreshold 5
    summaryPrompt := jsOrStr options.summaryPrompt "Summarize the key points of this conversation:"
    state := { messages := [], summary := none, keyPoints := [], lastSummarizedAt := now } }

/-- The selection `messages.slice(messages.findIndex(m => m.role !==
"system"))` of `summarizeConversation`.  JavaScript `findIndex` yields `-1`
when no element matches, and `slice(-1)` then selects the final element,
which the embedding renders through the `none` branch. -/
def messagesToSummarizeOf (msgs : List Message) : List Message :=
  match msgs.findIdx? (fun m => m.role ≠ Role.system) with
  | some i => msgs.drop i
  | none => jsSliceNeg msgs 1

/-- `summarizeConversation()`. -/
def summarizeConversation (c : Chain) (now : Nat) : Chain :=
  if (messagesToSummarizeOf c.state.messages).length = 0 then c
  else
    { c with state :=
      { c.state with
        summary := some ("Last " ++ toString (messagesToSummarizeOf c.state.messages).length
          ++ " messages exchanged")
        keyPoints := ((messagesToSummarizeOf c.state.messages).filter
            (fun m => m.role = Role.assistant)).map
          (fun m => jsSubstring0 m.content 100 ++ "...")
        lastSummarizedAt := now } }

/-- The first statement of `addMessage`: `this.state.messages.push(message)`. -/
def pushMessage (c : Chain) (message : Message) : Chain :=
  { c with state := { c.state with messages := c.state.messages ++ [message] } }

/-- The final block of `addMessage`: when the count exceeds `maxMessages`,
retain `messages.slice(-maxMessages)`. -/
def trimMessages (c : Chain) : Chain :=
  if c.state.messages.length > c.maxMessages then
    { c with state := { c.state with messages := jsSliceNeg c.state.messages c.maxMessages } }
  else c

/-- `addMessage(message)`: push, summarize when the pre-trim count has reached
`summarizeThreshold`, then trim. -/
def addMessage (c : Chain) (message : Message) (now : Nat) : Chain :=
  let c₁ := pushMessage c message
  let c₂ :=
    if c₁.state.messages.length ≥ c₁.summarizeThreshold then summarizeConversation c₁ now
    else c₁
  trimMessages c₂

/-- `clear()`: reset to the empty initial state with a fresh `lastSummarizedAt`. -/
def clear (c : Chain) (now : Nat) : Chain :=
  { c with state := { messages := [], summary := none, keyPoints := [], lastSummarizedAt := now } }

/-- `getContext()` snapshot. -/
def getContext (c : Chain) : List Message × Option String × List String :=
  (c.state.messages, c.state.summary, c.state.keyPoints)

/-- `getFormattedContext()`: summary paragraph, then bulleted key points. -/
def getFormattedContext (c : Chain) : String :=
  let context := ""
  let context :=
    match c.state.summary with
    | some s => context ++ "Previous conversation summary:\n" ++ s ++ "\n\n"
    | none => context
  if c.state.keyPoints.length > 0 then
    context ++ "Key points discussed:\n"
      ++ String.intercalate "\n" (c.state.keyPoints.map (fun point => "- " ++ point))
      ++ "\n\n"
  else context

/-! ### Analytics data model (src/app/lib/analyticsLogger.ts) -/

/-- The `"low" | "medium" | "high"` union. -/
inductive Level where
  | low
  | medium
  | high
deriving DecidableEq, Repr

/-- The ambiguity-factor `type` union of `ScenarioContext`. -/
inductive AmbiguityType where
  | context
  | intent
  | reference
  | temporal
  | semantic
deriving DecidableEq, Repr

/-- One entry of `ScenarioContext.ambiguityFactors`. -/
structure AmbiguityFactor where
  type : AmbiguityType
  description : String
  impactLevel : Level
  resolutionHints : Option (List String)
deriving DecidableEq, Repr

/-- The memory-dependency `type` union of `ScenarioContext`. -/
inductive MemDepType where
  | short_term
  | conversation_context
  | domain_knowledge
  | prior_interaction
deriving DecidableEq, Repr

/-- The memory-dependency `relevance` union. -/
inductive Relevance where
  | critical
  | helpful
  | optional
deriving DecidableEq, Repr

/-- The memory-dependency `timeframe` union. -/
inductive Timeframe where
  | current_session
  | recent
  | historical
deriving DecidableEq, Repr

/-- One entry of `ScenarioContext.memoryDependencies`. -/
structure MemoryDependency where
  type : MemDepType
  relevance : Relevance
  timeframe : Option Timeframe
  confidence : ℚ
deriving DecidableEq, Repr

/-- `ScenarioContext` from analyticsLogger.ts; fields marked `?` in the
interface are `Option`. -/
structure ScenarioContext where
  domain : String
  intent : List String
  complexity : Level
  requiredCapabilities : List String
  constraintsAndLimitations : Option (List String)
  ambiguityFactors : Option (List AmbiguityFactor)
  memoryDependencies : Option (List MemoryDependency)
deriving DecidableEq, Repr

/-- `InteractionPattern.knowledgeRequirements.uncertaintyAreas` entries. -/
structure UncertaintyArea where
  domain : String
  reason : String
  impact : Level
deriving DecidableEq, Repr

/-- The `depth` union of `knowledgeRequirements`. -/
inductive Depth where
  | surface
  | moderate
  | deep
deriving DecidableEq, Repr

/-- The `temporalRelevance` union of `knowledgeRequirements`. -/
inductive TemporalRelevance where
  | historical
  | current
  | predictive
deriving DecidableEq, Repr

/-- `InteractionPattern.knowledgeRequirements`. -/
structure KnowledgeRequirements where
  domains : List String
  depth : Depth
  temporalRelevance : TemporalRelevance
  uncertaintyAreas : Option (List UncertaintyArea)
deriving DecidableEq, Repr

/-- The `formality` union of `interactionStyle`. -/
inductive Formality where
  | casual
  | professional
  | technical
deriving DecidableEq, Repr

/-- The `detailLevel` union of `interactionStyle`. -/
inductive DetailLevel where
  | concise
  | detailed
  | comprehensive
deriving DecidableEq, Repr

/-- The `aspect` union of `interactionStyle.adaptabilityNeeded`. -/
inductive AdaptAspect where
  | terminology
  | complexity
  | format
  | pace
deriving DecidableEq, Repr

/-- One entry of `interactionStyle.adaptabilityNeeded`. -/
structure Adaptability where
  aspect : AdaptAspect
  reason : String
  suggestedAdjustment : String
deriving DecidableEq, Repr

/-- `InteractionPattern.interactionStyle`. -/
structure InteractionStyle where
  formality : Formality
  detailLevel : DetailLevel
  preferredFormat : List String
  adaptabilityNeeded : Option (List Adaptability)
deriving DecidableEq, Repr

/-- The `expertise` union of `userContext`. -/
inductive Expertise where
  | novice
  | intermediate
  | expert
deriving DecidableEq, Repr

/-- The `goalClarity` union of `userContext`. -/
inductive GoalClarity where
  | vague
  | moderate
  | clear
deriving DecidableEq, Repr

/-- The `engagementStyle` union of `userContext`. -/
inductive EngagementStyle where
  | passive
  | active
  | collaborative
deriving DecidableEq, Repr

/-- `userContext.consistencyMetrics`. -/
structure ConsistencyMetrics where
  topicAdherence : ℚ
  clarityTrend : ℚ
  engagementStability : ℚ
deriving DecidableEq, Repr

/-- One entry of `userContext.adaptationHistory`. -/
structure AdaptationRecord where
  timestamp : Nat
  aspect : String
  fromState : String
  toState : String
  trigger : String
deriving DecidableEq, Repr

/-- `InteractionPattern.userContext`. -/
structure UserContext where
  expertise : Expertise
  goalClarity : GoalClarity
  engagementStyle : EngagementStyle
  consistencyMetrics : Option ConsistencyMetrics
  adaptationHistory : Option (List AdaptationRecord)
deriving DecidableEq, Repr

/-- One entry of `conversationDynamics.topicEvolution` (`from`/`to` are
reserved words in Lean, hence `fromTopic`/`toTopic`). -/
structure TopicEvolution where
  fromTopic : String
  toTopic : String
  trigger : String
  timestamp : Nat
deriving DecidableEq, Repr

/-- One entry of `conversationDynamics.clarificationNeeded`. -/
structure Clarification where
  aspect : String
  frequency : Nat
  pattern : String
deriving DecidableEq, Repr

/-- One entry of `conversationDynamics.successfulStrategies`. -/
structure Strategy where
  type : String
  effectiveness : ℚ
  context : String
deriving DecidableEq, Repr

/-- `InteractionPattern.conversationDynamics`. -/
structure ConversationDynamics where
  topicEvolution : List TopicEvolution
  clarificationNeeded : List Clarification
  successfulStrategies : List Strategy
deriving DecidableEq, Repr

/-- The runtime shape of the logger's `interactionPatterns` object.  The
TypeScript interface declares the first five fields as required, but the
logger builds the object as `{...this.interactionPatterns, ...patterns} as
InteractionPattern` with `patterns : Partial<InteractionPattern>` and a
possibly-`null` previous value, so at runtime every top-level field may be
absent; each is therefore an `Option` (an absent field and a field explicitly
set to `undefined` are identified). -/
structure InteractionPattern where
  primaryIntent : Option String
  secondaryIntents : Option (List String)
  contextualDomain : Option String
  knowledgeRequirements : Option KnowledgeRequirements
  interactionStyle : Option InteractionStyle
  userContext : Option UserContext
  conversationDynamics : Option ConversationDynamics
deriving DecidableEq, Repr

/-- `OutcomeProjection.successCriteria`. -/
structure SuccessCriteria where
  primary : List String
  secondary : List String
  metrics : List (String × String)
deriving DecidableEq, Repr

/-- One entry of `OutcomeProjection.riskFactors`. -/
structure RiskFactor where
  type : String
  likelihood : Level
  impact : Level
  mitigationStrategy : Option String
deriving DecidableEq, Repr

/-- `OutcomeProjection.delegationHints`. -/
structure DelegationHints where
  suggestedAgents : List String
  reasoning : List String
  confidenceScore : ℚ
deriving DecidableEq, Repr

/-- `OutcomeProjection` from analyticsLogger.ts. -/
structure OutcomeProjection where
  immediateGoal : String
  contextualGoals : List String
  requiredCapabilities : List String
  successCriteria : SuccessCriteria
  riskFactors : List RiskFactor
  delegationHints : DelegationHints
deriving DecidableEq, Repr

/-! ### `AnalyticsLogger.analyzeContent` -/

/-- The return shape of `analyzeContent`. -/
structure Analysis where
  intents : List String
  domain : String
  complexity : Level
  ambiguityFactors : List AmbiguityFactor
  memoryDependencies : List MemoryDependency
deriving DecidableEq, Repr

/-- `const words = content.toLowerCase().split(/\s+/)`. -/
def contentWords (content : String) : List String :=
  jsSplitWs (jsToLower content)

/-- The interrogative token list of the intent check. -/
def interrogativeTokens : List String :=
  ["how", "what", "why", "when", "where"]

/-- The hedging token list of the ambiguous-question check. -/
def hedgingTokens : List String :=
  ["any", "some", "maybe", "possibly", "about"]

/-- The temporal back-reference token list. -/
def temporalTokens : List String :=
  ["before", "after", "previous", "last", "next", "again"]

/-- The shared-knowledge recall token list. -/
def recallTokens : List String :=
  ["remember", "recall", "mentioned", "earlier", "said"]

/-- `content.includes("?") || words.some(w => [...].includes(w))`. -/
def informationSeekingDetected (content : String) : Bool :=
  content.data.contains '?'
    || (contentWords content).any (fun w => interrogativeTokens.contains w)

/-- The `intents` array: `"information_seeking"` is the only string the
source ever pushes. -/
def contentIntents (content : String) : List String :=
  if informationSeekingDetected content then ["information_seeking"] else []

/-- The `"intent"`-typed ambiguity factor pushed inside the
information-seeking branch when hedging words co-occur. -/
def intentAmbiguity (content : String) : List AmbiguityFactor :=
  if informationSeekingDetected content
      && (contentWords content).any (fun w => hedgingTokens.contains w) then
    [{ type := AmbiguityType.intent
       description := "Unclear specificity in information request"
       impactLevel := Level.medium
       resolutionHints := some ["Ask for specific examples", "Clarify scope"] }]
  else []

/-- The `"conversation_context"` memory dependency pushed on temporal
back-references. -/
def temporalDependency (content : String) : List MemoryDependency :=
  if (contentWords content).any (fun w => temporalTokens.contains w) then
    [{ type := MemDepType.conversation_context
       relevance := Relevance.critical
       timeframe := some Timeframe.current_session
       confidence := 9/10 }]
  else []

/-- The `"prior_interaction"` memory dependency pushed on recall tokens. -/
def recallDependency (content : String) : List MemoryDependency :=
  if (contentWords content).any (fun w => recallTokens.contains w) then
    [{ type := MemDepType.prior_interaction
       relevance := Relevance.critical
       timeframe := some Timeframe.recent
       confidence := 8/10 }]
  else []

/-- The `"reference"`-typed ambiguity factor pushed in the same recall
branch. -/
def referenceAmbiguity (content : String) : List AmbiguityFactor :=
  if (contentWords content).any (fun w => recallTokens.contains w) then
    [{ type := AmbiguityType.reference
       description := "Reference to previous context"
       impactLevel := Level.high
       resolutionHints := some ["Verify specific reference", "Ask for clarification"] }]
  else []

/-- One domain row of the `domainMatches` table: name, keyword list,
uncertainty-indicator list (the mutable `weight: 0` field is the
accumulator, not data). -/
structure DomainRow where
  name : String
  keywords : List String
  uncertaintyIndicators : List String

/-- The `domainMatches` table, in object-literal insertion order
(`Object.entries` iterates string keys in that order). -/
def domainTable : List DomainRow :=
  [ { name := "philosophical"
      keywords := ["principle", "foundation", "methodology", "paradigm", "framework",
                   "nature", "practical", "empirical"]
      uncertaintyIndicators := ["assumption", "bias", "interpretation", "perspective",
                                "context-dependent"] }
  , { name := "research"
      keywords := ["analysis", "investigation", "observation", "pattern", "evidence",
                   "methodology", "demonstration"]
      uncertaintyIndicators := ["preliminary", "hypothesis", "potential", "indication",
                                "suggests"] }
  , { name := "development"
      keywords := ["implementation", "iteration", "growth", "evolution", "adaptation",
                   "refinement"]
      uncertaintyIndicators := ["constraint", "dependency", "limitation", "requirement"] }
  , { name := "interaction"
      keywords := ["conversation", "dialogue", "exchange", "communication",
                   "understanding", "context"]
      uncertaintyIndicators := ["ambiguity", "misalignment", "confusion", "unclear"] } ]

/-- The `"semantic"` ambiguity factor pushed for a word matching a domain's
uncertainty indicators. -/
def semanticFactor (domainName : String) : AmbiguityFactor :=
  { type := AmbiguityType.semantic
    description := "Uncertainty in " ++ domainName
      ++ " domain: requires clarification or validation"
    impactLevel := Level.medium
    resolutionHints := some ["Request specific business context", "Validate assumptions",
                             "Define success metrics"] }

/-- The semantic ambiguity factors accumulated by the
`words.forEach` / `Object.entries` double loop, in push order: outer loop
over words, inner loop over domains in table order. -/
def semanticAmbiguity (content : String) : List AmbiguityFactor :=
  (contentWords content).foldl
    (fun acc w =>
      acc ++ domainTable.filterMap
        (fun row => if row.uncertaintyIndicators.contains w then some (semanticFactor row.name) else none))
    []

/-- The full `ambiguityFactors` array in push order: the intent factor, then
the reference factor, then the semantic factors. -/
def contentAmbiguityFactors (content : String) : List AmbiguityFactor :=
  intentAmbiguity content ++ referenceAmbiguity content ++ semanticAmbiguity content

/-- Each domain's accumulated `weight`: one increment per word contained in
its keyword list. -/
def domainWeights (content : String) : List (String × Nat) :=
  domainTable.map
    (fun row => (row.name, ((contentWords content).filter (fun w => row.keywords.contains w)).length))

/-- The winning-domain fold: start at `maxWeight = 0`, `domain = "general"`,
strict `>` so earlier table entries win ties. -/
def contentDomain (content : String) : String :=
  ((domainWeights content).foldl
    (fun acc p => if p.2 > acc.1 then (p.2, p.1) else acc)
    (0, "general")).2

/-- The `complexityFactors.factors` sum.  `temporalAspect` tests
`intents.includes("temporal_request")`, a string the source never pushes. -/
def complexityScoreOf (content : String) : Nat :=
  (if content.length > 100 then 2 else if content.length > 50 then 1 else 0)
    + (if (contentIntents content).length > 2 then 2
       else if (contentIntents content).length > 1 then 1 else 0)
    + (if contentDomain content ≠ "general" then 1 else 0)
    + (if (contentIntents content).contains "temporal_request" then 1 else 0)
    + (contentAmbiguityFactors content).length

/-- `complexityScore >= 4 ? "high" : complexityScore >= 2 ? "medium" : "low"`. -/
def contentComplexity (content : String) : Level :=
  if complexityScoreOf content ≥ 4 then Level.high
  else if complexityScoreOf content ≥ 2 then Level.medium
  else Level.low

/-- The `"domain_knowledge"` memory dependency appended when complexity is
high, after the two earlier dependency pushes. -/
def contentMemoryDependencies (content : String) : List MemoryDependency :=
  temporalDependency content ++ recallDependency content
    ++ (if contentComplexity content = Level.high then
          [{ type := MemDepType.domain_knowledge
             relevance := Relevance.critical
             timeframe := some Timeframe.historical
             confidence := 85/100 }]
        else [])

/-- `AnalyticsLogger.analyzeContent(content)`, assembled from the blocks
above in source order. -/
def analyzeContent (content : String) : Analysis :=
  { intents := contentIntents content
    domain := contentDomain content
    complexity := contentComplexity content
    ambiguityFactors := contentAmbiguityFactors content
    memoryDependencies := contentMemoryDependencies content }

/-! ### `AnalyticsLogger` state and event log -/

/-- The `category` union of `AnalyticsEvent`. -/
inductive Category where
  | system
  | interaction
  | outcome
deriving DecidableEq, Repr

/-- The `trigger.type` union of `SearchReasoning`. -/
inductive TriggerType where
  | knowledge_gap
  | verification_needed
  | context_expansion
  | pattern_validation
deriving DecidableEq, Repr

/-- `SearchReasoning.trigger`. -/
structure SearchTrigger where
  type : TriggerType
  source : String
  confidence : ℚ
deriving DecidableEq, Repr

/-- One entry of `SearchReasoning.chain`. -/
structure ChainStep where
  step : Nat
  reasoning : String
  query : String
  expectedOutcome : String
  dependsOn : Option (List Nat)
deriving DecidableEq, Repr

/-- `SearchReasoning.contextualFactors`. -/
structure ContextualFactors where
  relevantPatterns : List String
  uncertaintyAreas : List String
  requiredValidation : List String
deriving DecidableEq, Repr

/-- `SearchReasoning` from analyticsLogger.ts. -/
structure SearchReasoning where
  trigger : SearchTrigger
  chain : List ChainStep
  contextualFactors : ContextualFactors
deriving DecidableEq, Repr

/-- The `data: Record<string, any>` payloads of the event-logging call sites
modelled here, as a tagged union.  `withPatterns` and `withProjections`
represent the extra field `logInteraction` (`patterns`) and `logOutcome`
(`activeProjections`) spread into the caller's data. -/
inductive EventData where
  | scenarioContextUpdated (previousContext : Option ScenarioContext) (analysis : Analysis)
  | agentContextUpdated (agentName : String) (agentDescription : String)
  | patternsUpdated (newPatterns : InteractionPattern) (fullPatterns : Option InteractionPattern)
  | projectionAdded (newProjection : OutcomeProjection) (totalProjections : Nat)
  | withPatterns (base : EventData) (patterns : Option InteractionPattern)
  | withProjections (base : EventData) (activeProjections : List OutcomeProjection)
deriving DecidableEq, Repr

/-- `AnalyticsEvent.metadata`. -/
structure Metadata where
  sessionId : String
  agentName : Option String
  contextualGoals : List String
  scenarioContext : Option ScenarioContext
deriving DecidableEq, Repr

/-- `AnalyticsEvent`, with its `data` restricted to the modelled payloads. -/
structure AnalyticsEvent where
  timestamp : Nat
  category : Category
  type : String
  data : EventData
  metadata : Metadata
deriving DecidableEq, Repr

/-- The name and public description drawn from an `AgentConfig`. -/
structure AgentInfo where
  name : String
  publicDescription : String
deriving DecidableEq, Repr

/-- The private fields of the `AnalyticsLogger` class (the constant
`BRAVE_SEARCH_API_KEY` is omitted). -/
structure LoggerState where
  events : List AnalyticsEvent
  currentSessionId : String
  currentAgent : Option AgentInfo
  interactionPatterns : Option InteractionPattern
  activeOutcomeProjections : List OutcomeProjection
  currentScenarioContext : Option ScenarioContext
  searchHistory : List SearchReasoning
deriving DecidableEq, Repr

/-- The logger constructor: empty log, fresh session id (`crypto.randomUUID`,
passed as a parameter). -/
def initialLoggerState (sessionId : String) : LoggerState :=
  { events := []
    currentSessionId := sessionId
    currentAgent := none
    interactionPatterns := none
    activeOutcomeProjections := []
    currentScenarioContext := none
    searchHistory := [] }

/-- `constructBaselineQuery`: deduplicate (`new Set`), keep the first three
terms, join with `" AND "`, append `" methodology framework"`. -/
def constructBaselineQuery (factors : ContextualFactors) : String :=
  String.intercalate " AND "
      ((jsSetDedup (factors.relevantPatterns ++ factors.uncertaintyAreas)).take 3)
    ++ " methodology framework"

/-- `constructValidationQuery`: first two uncertainties, each quoted with a
`validation OR verification` suffix, joined with `" AND "`. -/
def constructValidationQuery (uncertainties : List String) : String :=
  String.intercalate " AND "
    ((uncertainties.take 2).map (fun u => "\"" ++ u ++ "\" validation OR verification"))

/-- `constructPatternQuery`: first two patterns, each quoted with an
`examples OR applications` suffix, joined with `" AND "`. -/
def constructPatternQuery (patterns : List String) : String :=
  String.intercalate " AND "
    ((patterns.take 2).map (fun p => "\"" ++ p ++ "\" examples OR applications"))

/-- The chain-building and `searchHistory` push of `determineSearchNeeds`,
given the two gathered uncertainty lists. -/
def determineSearchNeedsCore (s : LoggerState) (uncertaintyAreas relevantPatterns : List String) :
    Option SearchReasoning × LoggerState :=
  let factors : ContextualFactors :=
    { relevantPatterns := relevantPatterns
      uncertaintyAreas := uncertaintyAreas
      requiredValidation := [] }
  if factors.uncertaintyAreas.length > 0 || factors.relevantPatterns.length > 0 then
    let chain₁ := [{ step := 1
                     reasoning := "Establish baseline understanding of uncertain areas"
                     query := constructBaselineQuery factors
                     expectedOutcome := "Framework and terminology validation"
                     dependsOn := none : ChainStep }]
    let chain₂ :=
      if factors.uncertaintyAreas.length > 0 then
        chain₁ ++ [{ step := 2
                     reasoning := "Validate specific uncertainty areas"
                     query := constructValidationQuery factors.uncertaintyAreas
                     expectedOutcome := "Uncertainty resolution or mitigation strategies"
                     dependsOn := some [1] }]
      else chain₁
    let chain₃ :=
      if factors.relevantPatterns.length > 0 then
        chain₂ ++ [{ step := 3
                     reasoning := "Verify and expand identified patterns"
                     query := constructPatternQuery factors.relevantPatterns
                     expectedOutcome := "Pattern validation and extension"
                     dependsOn := some [1, 2] }]
      else chain₂
    let reasoning : SearchReasoning :=
      { trigger := { type := TriggerType.knowledge_gap, source := "initial_analysis",
                     confidence := 8/10 }
        chain := chain₃
        contextualFactors := factors }
    (some reasoning, { s with searchHistory := s.searchHistory ++ [reasoning] })
  else
    (none, s)

/-- `determineSearchNeeds(event)` (the `event` argument is unused by its
body).  The access `this.interactionPatterns?.knowledgeRequirements
.uncertaintyAreas` throws a `TypeError` when the patterns object exists but
its `knowledgeRequirements` field is absent at runtime; that path is the
`Except.error` case.  On success it returns the reasoning (when a chain was
built) together with the state whose `searchHistory` may have grown. -/
def determineSearchNeedsRun (s : LoggerState) :
    Except String (Option SearchReasoning × LoggerState) :=
  let uncertaintyAreas :=
    match s.currentScenarioContext with
    | some ctx =>
      match ctx.ambiguityFactors with
      | some fs => (fs.filter (fun f => f.impactLevel = Level.high)).map (fun f => f.description)
      | none => []
    | none => []
  match s.interactionPatterns with
  | some p =>
    match p.knowledgeRequirements with
    | some kr =>
      let relevantPatterns :=
        match kr.uncertaintyAreas with
        | some areas => (areas.filter (fun a => a.impact = Level.high)).map (fun a => a.reason)
        | none => []
      Except.ok (determineSearchNeedsCore s uncertaintyAreas relevantPatterns)
    | none => Except.error "TypeError: cannot read uncertaintyAreas of undefined"
  | none => Except.ok (determineSearchNeedsCore s uncertaintyAreas [])

/-- `addEvent`: stamp the event with `Date.now()` (`now`) and the metadata
snapshot, append it, and run the synchronous prefix of the un-awaited
`processEvent` call — `analyzeInteractionEvent` / `analyzeOutcomeEvent`
mutate nothing, and `determineSearchNeeds` runs to completion before
`processEvent` first suspends.  The deferred continuation (the
`search_reasoning_generated` log) runs after the calling operation has
returned and is outside the per-call post-state; a `TypeError` inside the
un-awaited promise is swallowed as an unhandled rejection. -/
def addEvent (s : LoggerState) (category : Category) (type : String) (data : EventData)
    (now : Nat) : LoggerState :=
  let fullEvent : AnalyticsEvent :=
    { timestamp := now
      category := category
      type := type
      data := data
      metadata :=
        { sessionId := s.currentSessionId
          agentName := s.currentAgent.map (fun a => a.name)
          contextualGoals := s.activeOutcomeProjections.map (fun p => p.immediateGoal)
          scenarioContext := s.currentScenarioContext } }
  let s₁ := { s with events := s.events ++ [fullEvent] }
  match determineSearchNeedsRun s₁ with
  | Except.ok (_, s₂) => s₂
  | Except.error _ => s₁

/-- `logSystemEvent(type, data)`. -/
def logSystemEvent (s : LoggerState) (type : String) (data : EventData) (now : Nat) :
    LoggerState :=
  addEvent s Category.system type data now

/-- `logInteraction(type, data)`: spreads `patterns: this.interactionPatterns`
into the data. -/
def logInteraction (s : LoggerState) (type : String) (data : EventData) (now : Nat) :
    LoggerState :=
  addEvent s Category.interaction type (EventData.withPatterns data s.interactionPatterns) now

/-- `logOutcome(type, data)`: spreads `activeProjections` into the data. -/
def logOutcome (s : LoggerState) (type : String) (data : EventData) (now : Nat) :
    LoggerState :=
  addEvent s Category.outcome type (EventData.withProjections data s.activeOutcomeProjections) now

/-- `deriveRequiredCapabilities(analysis)`: a `Set` filled with pairwise
distinct literals, returned in insertion order. -/
def deriveRequiredCapabilities (analysis : Analysis) : List String :=
  ["contextual_understanding", "bias_recognition"]
    ++ (if analysis.domain = "philosophical" then
          ["principle_extraction", "methodology_assessment", "paradigm_analysis"]
        else if analysis.domain = "research" then
          ["pattern_recognition", "evidence_evaluation", "hypothesis_formation"]
        else if analysis.domain = "development" then
          ["iterative_refinement", "growth_assessment", "adaptation_planning"]
        else if analysis.domain = "interaction" then
          ["context_preservation", "ambiguity_resolution", "continuity_maintenance"]
        else [])
    ++ (if analysis.complexity = Level.high then
          ["deep_pattern_analysis", "bias_mitigation", "extrapolation_management"]
        else [])
    ++ (if analysis.complexity = Level.high then
          ["external_knowledge_integration", "source_validation"]
        else [])

/-- `updateScenarioContext(content)`: overwrite `currentScenarioContext` with
an object built only from the fresh analysis, then log — the source reads
`previousContext: this.currentScenarioContext` after the assignment. -/
def updateScenarioContext (s : LoggerState) (content : String) (now : Nat) : LoggerState :=
  let analysis := analyzeContent content
  let ctx : ScenarioContext :=
    { domain := analysis.domain
      intent := analysis.intents
      complexity := analysis.complexity
      requiredCapabilities := deriveRequiredCapabilities analysis
      constraintsAndLimitations := none
      ambiguityFactors := none
      memoryDependencies := none }
  let s₁ := { s with currentScenarioContext := some ctx }
  logSystemEvent s₁ "scenario_context_updated"
    (EventData.scenarioContextUpdated s₁.currentScenarioContext analysis) now

/-- One field of the JavaScript spread `{...prev, ...patch}`: the patch's
value when the field is present there, otherwise the previous value. -/
def jsSpreadField (patchField prevField : Option α) : Option α :=
  match patchField with
  | some v => some v
  | none => prevField

/-- `{...this.interactionPatterns, ...patterns}` over the seven top-level
fields; a `null` previous object contributes nothing. -/
def spreadMergePatterns (prev : Option InteractionPattern) (patch : InteractionPattern) :
    InteractionPattern :=
  match prev with
  | none => patch
  | some p =>
    { primaryIntent := jsSpreadField patch.primaryIntent p.primaryIntent
      secondaryIntents := jsSpreadField patch.secondaryIntents p.secondaryIntents
      contextualDomain := jsSpreadField patch.contextualDomain p.contextualDomain
      knowledgeRequirements := jsSpreadField patch.knowledgeRequirements p.knowledgeRequirements
      interactionStyle := jsSpreadField patch.interactionStyle p.interactionStyle
      userContext := jsSpreadField patch.userContext p.userContext
      conversationDynamics := jsSpreadField patch.conversationDynamics p.conversationDynamics }

/-- `setCurrentAgent(agent)`. -/
def setCurrentAgent (s : LoggerState) (agent : AgentInfo) (now : Nat) : LoggerState :=
  let s₁ := { s with currentAgent := some agent }
  logSystemEvent s₁ "agent_context_updated"
    (EventData.agentContextUpdated agent.name agent.publicDescription) now

/-- `updateInteractionPatterns(patterns)`: replace the stored object by the
shallow merge, then log `patterns_updated` (the logged `fullPatterns` is the
post-assignment value). -/
def updateInteractionPatterns (s : LoggerState) (patch : InteractionPattern) (now : Nat) :
    LoggerState :=
  let merged := spreadMergePatterns s.interactionPatterns patch
  let s₁ := { s with interactionPatterns := some merged }
  logInteraction s₁ "patterns_updated" (EventData.patternsUpdated patch s₁.interactionPatterns) now

/-- `addOutcomeProjection(projection)`. -/
def addOutcomeProjection (s : LoggerState) (projection : OutcomeProjection) (now : Nat) :
    LoggerState :=
  let s₁ := { s with activeOutcomeProjections := s.activeOutcomeProjections ++ [projection] }
  logOutcome s₁ "projection_added"
    (EventData.projectionAdded projection s₁.activeOutcomeProjections.length) now

/-- `getInsights()`: current pattern, full projection list, last 50 events. -/
def getInsights (s : LoggerState) :
    Option InteractionPattern × List OutcomeProjection × List AnalyticsEvent :=
  (s.interactionPatterns, s.activeOutcomeProjections, jsSliceNeg s.events 50)

/-- The return shape of `getDelegationSuggestions` (`contextMatch` is a
`Record<string, number>`, modelled as an association list). -/
structure DelegationSuggestions where
  suggestedAgents : List String
  reasoning : List String
  confidence : ℚ
  contextMatch : List (String × ℚ)
deriving DecidableEq, Repr

/-- `getDelegationSuggestions()`: the guarded insufficient-context result, or
the unimplemented-placeholder result. -/
def getDelegationSuggestions (s : LoggerState) : DelegationSuggestions :=
  match s.currentScenarioContext, s.interactionPatterns with
  | some _, some _ =>
    { suggestedAgents := []
      reasoning := ["Delegation suggestion logic not yet implemented"]
      confidence := 0
      contextMatch := [] }
  | _, _ =>
    { suggestedAgents := []
      reasoning := ["Insufficient context for delegation suggestions"]
      confidence := 0
      contextMatch := [] }

/-- `analyzeContent` viewed as a method call on the logger: its body reads no
instance field and assigns none, so the embedding threads the receiver state
through unchanged and the result depends only on `content`. -/
def analyzeContentCall (s : LoggerState) (content : String) : Analysis × LoggerState :=
  (analyzeContent content, s)

/-! ### Auto-delegation gate (src/app/App.tsx, `handleAgentChange`) -/

/-- `DelegationMode` from App.tsx. -/
inductive DelegationMode where
  | manual
  | auto
deriving DecidableEq, Repr

/-- The `details` object of the `agent_change_rejected` client event. -/
structure RejectionDetails where
  confidence : ℚ
  reasonCount : Nat
  contextMatch : List (String × ℚ)
deriving DecidableEq, Repr

/-- The client event passed to `logClientEvent` on rejection. -/
structure ClientEvent where
  type : String
  reason : String
  details : RejectionDetails
deriving DecidableEq, Repr

/-- Whether `handleAgentChange` gets past the auto-delegation gate.  The
switching logic that follows the gate (same-agent check, agent-set lookup,
disconnect) is outside the gate model. -/
inductive AgentChangeOutcome where
  | rejected (event : ClientEvent)
  | proceed
deriving DecidableEq, Repr

/-- The gate section of `handleAgentChange` (App.tsx): in `'auto'` mode the
three boolean factors are computed on the advisor's output and a failure of
any one logs `agent_change_rejected` with the specific values and returns;
`'manual'` mode bypasses the gate. -/
def handleAgentChange (mode : DelegationMode) (suggestions : DelegationSuggestions) :
    AgentChangeOutcome :=
  match mode with
  | DelegationMode.auto =>
    let hasHighConfidence : Bool := decide (suggestions.confidence > 95/100)
    let hasMultipleReasons : Bool := decide (suggestions.reasoning.length ≥ 3)
    let hasContextMatch : Bool :=
      (suggestions.contextMatch.map Prod.snd).all (fun score => decide (score > 9/10))
    if !hasHighConfidence || !hasMultipleReasons || !hasContextMatch then
      AgentChangeOutcome.rejected
        { type := "agent_change_rejected"
          reason := "Insufficient confidence for auto-delegation"
          details :=
            { confidence := suggestions.confidence
              reasonCount := suggestions.reasoning.length
              contextMatch := suggestions.contextMatch } }
    else AgentChangeOutcome.proceed
  | DelegationMode.manual => AgentChangeOutcome.proceed

/-! ### Transcript insertion (the two `addTranscriptMessage` variants) -/

/-- The `type` union of `TranscriptItem`. -/
inductive ItemType where
  | message
  | breadcrumb
deriving DecidableEq, Repr

/-- The `status` union of `TranscriptItem`. -/
inductive ItemStatus where
  | inProgress
  | done
deriving DecidableEq, Repr

/-- `TranscriptItem` (the fields touched by the transcript operations; the
breadcrumb-only `data` payload is not modelled).  `title` is optional in the
source type, and `role` is a runtime string narrowed only by a cast. -/
structure TranscriptItem where
  itemId : String
  type : ItemType
  role : String
  title : Option String
  expanded : Bool
  timestamp : String
  createdAtMs : Int
  status : ItemStatus
  isHidden : Bool
deriving DecidableEq, Repr

/-- The argument object of `addTranscriptMessage`. -/
structure TranscriptMessageInput where
  role : String
  content : String
  itemId : Option String
  isHidden : Option Bool
deriving DecidableEq, Repr

/-- A console line: the two levels used by the transcript code. -/
inductive ConsoleLevel where
  | warn
  | error
deriving DecidableEq, Repr

/-- The content-hash of the richer variant: each character's code in
hexadecimal, concatenated, first eight characters (`Nat.toDigits 16` renders
the same lowercase hexadecimal as JavaScript `toString(16)`). -/
def jsContentHash (content : String) : String :=
  String.mk ((content.data.map (fun c => Nat.toDigits 16 c.toNat)).flatten.take 8)

/-- `addTranscriptMessage` of the richer provider variant (duplicate-id
regeneration, explicit-id rejection, recent-duplicate rejection).  Values the
browser supplies at run time are parameters: `now` is the `Date.now()` taken
at entry, `timestampStr` its `toLocaleTimeString()` rendering, `counter` the
incremented `messageCounterRef.current`, `uuid₁`/`uuid₂` the two `uuidv4()`
draws, and `nowLate` the second `Date.now()` in the regenerated id.  Returns
the new list and the console lines written. -/
def addTranscriptMessageRich (msg : TranscriptMessageInput) (now : Int)
    (timestampStr : String) (counter : Nat) (uuid₁ uuid₂ : String) (nowLate : Int)
    (prev : List TranscriptItem) : List TranscriptItem × List (ConsoleLevel × String) :=
  let contentHash := jsContentHash msg.content
  let generatedId := toString now ++ "-" ++ msg.role ++ "-" ++ contentHash ++ "-"
    ++ toString counter ++ "-" ++ uuid₁
  let newItem₀ : TranscriptItem :=
    { itemId := jsOrStr msg.itemId generatedId
      type := ItemType.message
      role := msg.role
      title := some msg.content
      expanded := false
      timestamp := timestampStr
      createdAtMs := now
      status := ItemStatus.inProgress
      isHidden := jsOrBool msg.isHidden false }
  let newItem :=
    if prev.any (fun item => item.itemId == newItem₀.itemId) then
      { newItem₀ with itemId := (toString now ++ "-" ++ msg.role ++ "-" ++ contentHash ++ "-"
          ++ toString counter ++ "-" ++ uuid₂ ++ "-" ++ toString nowLate) }
    else newItem₀
  if jsTruthy msg.itemId
      && prev.any (fun item => some item.itemId == msg.itemId) then
    (prev, [(ConsoleLevel.warn,
      "Message with ID " ++ jsOrStr msg.itemId "" ++ " already exists:")])
  else
    match prev.find? (fun item =>
        item.role == msg.role && item.title == some msg.content
          && decide (now - item.createdAtMs < 200) && jsIncludes item.itemId contentHash) with
    | some _ => (prev, [(ConsoleLevel.warn, "Recent duplicate detected:")])
    | none => (prev ++ [newItem], [])

/-- `addTranscriptMessage` of the simpler provider variant: a provided id
that already exists is rejected with a console warning, otherwise the new
item is appended.  `uuid` is the `uuidv4()` draw, `timestampStr` and `now`
the clock readings. -/
def addTranscriptMessageSimple (msg : TranscriptMessageInput) (uuid : String)
    (timestampStr : String) (now : Int) (prev : List TranscriptItem) :
    List TranscriptItem × List (ConsoleLevel × String) :=
  let newItem : TranscriptItem :=
    { itemId := jsOrStr msg.itemId uuid
      type := ItemType.message
      role := msg.role
      title := some msg.content
      expanded := false
      timestamp := timestampStr
      createdAtMs := now
      status := ItemStatus.inProgress
      isHidden := jsOrBool msg.isHidden false }
  if jsTruthy msg.itemId
      && prev.any (fun item => some item.itemId == msg.itemId) then
    (prev, [(ConsoleLevel.warn,
      "Message with ID " ++ jsOrStr msg.itemId "" ++ " already exists")])
  else (prev ++ [newItem], [])

/-! ### Spec-side definitions (for refinement comparison) -/

/-- The spec's complexity formula, stated from its words in §4.1 step 5:
`(length>100 ? 2 : length>50 ? 1 : 0) + (intents.length>2 ? 2 :
intents.length>1 ? 1 : 0) + (domain != general ? 1 : 0) +
ambiguityFactors.length`. -/
def specComplexityScore (contentLength numIntents : Nat) (domain : String)
    (numAmbiguityFactors : Nat) : Nat :=
  (if contentLength > 100 then 2 else if contentLength > 50 then 1 else 0)
    + (if numIntents > 2 then 2 else if numIntents > 1 then 1 else 0)
    + (if domain ≠ "general" then 1 else 0)
    + numAmbiguityFactors

/-- The spec's complexity classification: `high` when the score is at least
4, `medium` when at least 2, else `low`. -/
def specComplexity (contentLength numIntents : Nat) (domain : String)
    (numAmbiguityFactors : Nat) : Level :=
  if specComplexityScore contentLength numIntents domain numAmbiguityFactors ≥ 4 then Level.high
  else if specComplexityScore contentLength numIntents domain numAmbiguityFactors ≥ 2 then
    Level.medium
  else Level.low

/-- Modelled from the spec: the spec's intent-detection step says request-verb
tokens imply an `action_request` intent but names no token list (none exists in
the code); this list fixes archetypal request verbs for the counterexample. -/
def specRequestVerbTokens : List String :=
  ["create", "make", "build", "generate", "write", "do", "please"]

/-! ### Supporting lemmas -/

/-- `jsOrNat` with a positive default is positive. -/
theorem jsOrNat_pos (o : Option Nat) (d : Nat) (hd : 0 < d) : 0 < jsOrNat o d := by
  unfold jsOrNat
  match o with
  | none => exact hd
  | some n =>
    by_cases h : n = 0
    · simp [h, hd]
    · simp [h]
      exact Nat.pos_of_ne_zero h

/-- `summarizeConversation` leaves the message list and the configuration
untouched. -/
theorem summarizeConversation_frame (c : Chain) (now : Nat) :
    (summarizeConversation c now).state.messages = c.state.messages
      ∧ (summarizeConversation c now).maxMessages = c.maxMessages := by
  unfold summarizeConversation
  split <;> simp

/-- `trimMessages` never changes the configuration. -/
theorem trimMessages_maxMessages (c : Chain) :
    (trimMessages c).maxMessages = c.maxMessages := by
  unfold trimMessages
  split <;> rfl

/-- After trimming, a chain with a positive cap holds at most `maxMessages`
messages. -/
theorem trimMessages_length_le (c : Chain) (hpos : 0 < c.maxMessages) :
    (trimMessages c).state.messages.length ≤ c.maxMessages := by
  unfold trimMessages
  split
  · rename_i hgt
    simp only [jsSliceNeg]
    rw [if_neg (Nat.pos_iff_ne_zero.mp hpos)]
    simp only [List.length_drop]
    omega
  · rename_i hle
    omega

/-- The summarize-step of `addMessage` preserves `maxMessages`. -/
theorem summarizeStep_maxMessages (c₁ : Chain) (now : Nat) :
    (if c₁.state.messages.length ≥ c₁.summarizeThreshold then summarizeConversation c₁ now
      else c₁).maxMessages = c₁.maxMessages := by
  split
  · exact (summarizeConversation_frame _ _).2
  · rfl

/-- `addMessage` never changes `maxMessages`. -/
theorem addMessage_maxMessages (c : Chain) (m : Message) (now : Nat) :
    (addMessage c m now).maxMessages = c.maxMessages := by
  show (trimMessages _).maxMessages = c.maxMessages
  rw [trimMessages_maxMessages, summarizeStep_maxMessages]
  rfl

/-- After one `addMessage` on a chain with a positive cap, the message count
is at most the cap. -/
theorem addMessage_length_le (c : Chain) (m : Message) (now : Nat)
    (hpos : 0 < c.maxMessages) :
    (addMessage c m now).state.messages.length ≤ c.maxMessages := by
  show (trimMessages _).state.messages.length ≤ c.maxMessages
  have hmax := summarizeStep_maxMessages (pushMessage c m) now
  have h := trimMessages_length_le
    (if (pushMessage c m).state.messages.length ≥ (pushMessage c m).summarizeThreshold then
      summarizeConversation (pushMessage c m) now else pushMessage c m)
    (by rw [hmax]; exact hpos)
  rw [hmax] at h
  exact h

/-- Folding `addMessage` preserves the cap and the bound. -/
theorem foldl_addMessage_length_le (calls : List (Message × Nat)) (c : Chain)
    (hpos : 0 < c.maxMessages) (hlen : c.state.messages.length ≤ c.maxMessages) :
    (calls.foldl (fun ch p => addMessage ch p.1 p.2) c).state.messages.length
        ≤ c.maxMessages
      ∧ (calls.foldl (fun ch p => addMessage ch p.1 p.2) c).maxMessages = c.maxMessages := by
  induction calls generalizing c with
  | nil => exact ⟨hlen, rfl⟩
  | cons p rest ih =>
    simp only [List.foldl_cons]
    have hmax := addMessage_maxMessages c p.1 p.2
    have hb := addMessage_length_le c p.1 p.2 hpos
    have := ih (addMessage c p.1 p.2) (by rw [hmax]; exact hpos) (by rw [hmax]; exact hb)
    exact ⟨by rw [← hmax]; exact this.1, by rw [← hmax]; exact this.2⟩

/-! ### Claim theorems -/

/-- C1: for every constructor configuration and every sequence of
`addMessage` calls on a `ConversationMemoryChain` (each with its own clock
reading), the length of `MemoryState.messages` is at most the chain's
`maxMessages` after each call returns — the fold ranges over an arbitrary
call sequence, so the bound holds after every prefix — and `clear()` leaves
zero messages in any state. -/
theorem memoryChain_messages_bounded (options : ChainOptions) (now₀ : Nat)
    (calls : List (Message × Nat)) (c : Chain) (now : Nat) :
    (calls.foldl (fun ch p => addMessage ch p.1 p.2) (mkChain options now₀)).state.messages.length
        ≤ (mkChain options now₀).maxMessages
      ∧ (clear c now).state.messages.length = 0 := by
  constructor
  · have hpos : 0 < (mkChain options now₀).maxMessages :=
      jsOrNat_pos options.maxMessages 10 (by omega)
    exact (foldl_addMessage_length_le calls (mkChain options now₀) hpos (by simp [mkChain])).1
  · rfl

/-- C3 (failing input): with `summarizeThreshold = 1`, adding a single
system-role message to a fresh chain reaches the threshold with a history of
system messages only; the spec requires a no-op, but `summarizeConversation`
fabricates the summary `"Last 1 messages exchanged"` (empty `keyPoints`) and
advances `lastSummarizedAt` to the call's clock, because `findIndex` returns
`-1` and `slice(-1)` selects the final system message. -/
theorem summarizeConversation_system_only_fabricates :
    (addMessage
        (mkChain { maxMessages := none, summarizeThreshold := some 1, summaryPrompt := none } 0)
        { role := Role.system, content := "setup" } 1000).state.summary
        = some "Last 1 messages exchanged"
      ∧ (addMessage
          (mkChain { maxMessages := none, summarizeThreshold := some 1, summaryPrompt := none } 0)
          { role := Role.system, content := "setup" } 1000).state.keyPoints = []
      ∧ (addMessage
          (mkChain { maxMessages := none, summarizeThreshold := some 1, summaryPrompt := none } 0)
          { role := Role.system, content := "setup" } 1000).state.lastSummarizedAt = 1000 := by
  refine ⟨rfl, rfl, rfl⟩

/-- The boolean context-match scan of the gate agrees with the universally
quantified reading. -/
theorem contextMatch_all_iff (l : List (String × ℚ)) :
    ((l.map Prod.snd).all (fun score => decide (score > 9/10)) = true)
      ↔ ∀ p ∈ l, p.2 > 9/10 := by
  constructor
  · intro h p hp
    exact of_decide_eq_true (List.all_eq_true.mp h _ (List.mem_map_of_mem _ hp))
  · intro h
    apply List.all_eq_true.mpr
    intro x hx
    rcases List.mem_map.mp hx with ⟨p, hp, rfl⟩
    exact decide_eq_true (h p hp)

/-- C2: in `'auto'` delegation mode the gate of `handleAgentChange` lets a
switch proceed exactly when `confidence > 0.95`, `reasoning.length >= 3` and
every `contextMatch` value exceeds `0.9`; whenever it does not proceed it
logs the `agent_change_rejected` event carrying the specific confidence,
reasoning count and context-match values; and at each exact boundary —
confidence `0.95`, two reasons, a context-match value of `0.9` — the switch
is rejected. -/
theorem handleAgentChange_auto_gate (s : DelegationSuggestions) :
    (handleAgentChange DelegationMode.auto s = AgentChangeOutcome.proceed
        ↔ s.confidence > 95/100 ∧ s.reasoning.length ≥ 3 ∧ ∀ p ∈ s.contextMatch, p.2 > 9/10)
      ∧ (handleAgentChange DelegationMode.auto s ≠ AgentChangeOutcome.proceed →
          handleAgentChange DelegationMode.auto s = AgentChangeOutcome.rejected
            { type := "agent_change_rejected"
              reason := "Insufficient confidence for auto-delegation"
              details :=
                { confidence := s.confidence
                  reasonCount := s.reasoning.length
                  contextMatch := s.contextMatch } })
      ∧ handleAgentChange DelegationMode.auto
          { suggestedAgents := [], reasoning := ["a", "b", "c"], confidence := 95/100,
            contextMatch := [("match", 1)] } ≠ AgentChangeOutcome.proceed
      ∧ handleAgentChange DelegationMode.auto
          { suggestedAgents := [], reasoning := ["a", "b"], confidence := 96/100,
            contextMatch := [("match", 1)] } ≠ AgentChangeOutcome.proceed
      ∧ handleAgentChange DelegationMode.auto
          { suggestedAgents := [], reasoning := ["a", "b", "c"], confidence := 96/100,
            contextMatch := [("match", 9/10)] } ≠ AgentChangeOutcome.proceed := by
  refine ⟨?_, ?_, ?_, ?_, ?_⟩
  case refine_3 =>
    norm_num [handleAgentChange]
    exact fun h => nomatch h
  case refine_4 =>
    norm_num [handleAgentChange]
    exact fun h => nomatch h
  case refine_5 =>
    norm_num [handleAgentChange]
    exact fun h => nomatch h
  · unfold handleAgentChange
    by_cases h1 : s.confidence > 95/100 <;>
      by_cases h2 : s.reasoning.length ≥ 3 <;>
        by_cases h3 : ∀ p ∈ s.contextMatch, p.2 > 9/10 <;>
          simp [h1, h2, h3, contextMatch_all_iff s.contextMatch] <;>
          exact ⟨fun h a b hab => h b a hab, fun h x y hab => h y x hab⟩
  · intro hne
    unfold handleAgentChange at hne ⊢
    by_cases h1 : s.confidence > 95/100 <;>
      by_cases h2 : s.reasoning.length ≥ 3 <;>
        by_cases h3 : ((s.contextMatch.map Prod.snd).all (fun score => decide (score > 9/10))
            = true) <;>
          simp_all

/-- C10: in every logger state — in particular when both a scenario context
and an interaction pattern are present — `getDelegationSuggestions` returns
no suggested agents, confidence `0`, an empty `contextMatch`, and exactly one
reasoning string; consequently the auto-delegation gate never lets an
automatic agent switch proceed on its output. -/
theorem getDelegationSuggestions_fail_closed (s : LoggerState) :
    (getDelegationSuggestions s).suggestedAgents = []
      ∧ (getDelegationSuggestions s).confidence = 0
      ∧ (getDelegationSuggestions s).contextMatch = []
      ∧ (getDelegationSuggestions s).reasoning.length = 1
      ∧ handleAgentChange DelegationMode.auto (getDelegationSuggestions s)
          ≠ AgentChangeOutcome.proceed := by
  unfold getDelegationSuggestions
  rcases s.currentScenarioContext with _ | ctx <;> rcases s.interactionPatterns with _ | pat <;>
    refine ⟨rfl, rfl, rfl, rfl, ?_⟩ <;>
    (norm_num [handleAgentChange]; exact fun h => nomatch h)

/-- `determineSearchNeedsCore` touches only `searchHistory`. -/
theorem determineSearchNeedsCore_frame (s : LoggerState)
    (uncertaintyAreas relevantPatterns : List String) :
    (determineSearchNeedsCore s uncertaintyAreas relevantPatterns).2.interactionPatterns
        = s.interactionPatterns
      ∧ (determineSearchNeedsCore s uncertaintyAreas relevantPatterns).2.events = s.events := by
  simp only [determineSearchNeedsCore]
  split <;> exact ⟨rfl, rfl⟩

/-- When `determineSearchNeeds` completes, the state it returns agrees with
its input on everything but `searchHistory`. -/
theorem determineSearchNeedsRun_frame (s : LoggerState) (r : Option SearchReasoning)
    (s' : LoggerState) (h : determineSearchNeedsRun s = Except.ok (r, s')) :
    s'.interactionPatterns = s.interactionPatterns ∧ s'.events = s.events := by
  unfold determineSearchNeedsRun at h
  rcases hp : s.interactionPatterns with _ | p
  · simp only [hp] at h
    injection h with h
    have hs : s' = (determineSearchNeedsCore s _ []).2 := (congrArg Prod.snd h).symm
    subst hs
    refine ⟨?_, (determineSearchNeedsCore_frame s _ []).2⟩
    rw [← hp]
    exact (determineSearchNeedsCore_frame s _ []).1
  · simp only [hp] at h
    rcases hkr : p.knowledgeRequirements with _ | kr
    · simp only [hkr] at h
      exact Except.noConfusion h
    · simp only [hkr] at h
      injection h with h
      have hs : s' = (determineSearchNeedsCore s _ _).2 := (congrArg Prod.snd h).symm
      subst hs
      refine ⟨?_, (determineSearchNeedsCore_frame s _ _).2⟩
      rw [← hp]
      exact (determineSearchNeedsCore_frame s _ _).1

/-- `addEvent` changes neither the stored interaction patterns nor the
scenario context, and appends exactly the stamped event to the log. -/
theorem addEvent_frame (s : LoggerState) (category : Category) (type : String)
    (data : EventData) (now : Nat) :
    (addEvent s category type data now).interactionPatterns = s.interactionPatterns := by
  unfold addEvent
  dsimp only
  split
  · rename_i r s₂ heq
    exact (determineSearchNeedsRun_frame _ r s₂ heq).1
  · rfl

/-- C4 (failing input): run `updateScenarioContext` twice — first on
`"analysis"` (research domain), then on `"hello"` (general domain).  The
second call does replace the context wholesale, but the
`scenario_context_updated` event it emits carries, under the key
`previousContext`, the context as it stands *after* the update (the new
general context), not the previous research snapshot: the source assigns
`this.currentScenarioContext` before reading it for the event. -/
theorem updateScenarioContext_event_carries_new_context :
    ((updateScenarioContext (updateScenarioContext (initialLoggerState "session") "analysis" 10)
          "hello" 20).events.getLast?.map (fun e => (e.type, e.data))
        = some ("scenario_context_updated",
            EventData.scenarioContextUpdated
              (updateScenarioContext
                (updateScenarioContext (initialLoggerState "session") "analysis" 10)
                "hello" 20).currentScenarioContext
              (analyzeContent "hello")))
      ∧ (updateScenarioContext (updateScenarioContext (initialLoggerState "session") "analysis" 10)
            "hello" 20).currentScenarioContext
          ≠ (updateScenarioContext (initialLoggerState "session")
              "analysis" 10).currentScenarioContext
      ∧ (updateScenarioContext (initialLoggerState "session")
          "analysis" 10).currentScenarioContext ≠ none := by
  exact ⟨rfl, by decide, by decide⟩

/-- C5 (counterexample): `"please create the report"` contains request-verb
tokens, yet `analyzeContent` derives no `action_request` intent — the source
implements no request-verb detection at all. -/
theorem analyzeContent_request_verbs_no_action_request :
    ((contentWords "please create the report").any
        (fun w => specRequestVerbTokens.contains w) = true)
      ∧ "action_request" ∉ (analyzeContent "please create the report").intents := by
  exact ⟨rfl, by decide⟩

/-- The information-seeking flag holds exactly when the text contains a
question mark or a lowercased whitespace token among the interrogatives. -/
theorem informationSeekingDetected_iff (content : String) :
    informationSeekingDetected content = true
      ↔ ('?' ∈ content.data ∨ ∃ w ∈ contentWords content, w ∈ interrogativeTokens) := by
  unfold informationSeekingDetected
  simp [List.any_eq_true]

/-- C5 (amended): for every input text, the analysis's intents contain
`information_seeking` exactly when the text contains a question mark or an
interrogative token (how/what/why/when/where); the intents never contain
`action_request`, since the code implements no request-verb detection. -/
theorem analyzeContent_information_seeking_iff (content : String) :
    ("information_seeking" ∈ (analyzeContent content).intents
        ↔ ('?' ∈ content.data ∨ ∃ w ∈ contentWords content, w ∈ interrogativeTokens))
      ∧ "action_request" ∉ (analyzeContent content).intents := by
  constructor
  · show "information_seeking" ∈ contentIntents content ↔ _
    rw [← informationSeekingDetected_iff]
    unfold contentIntents
    split <;> rename_i h <;> simp_all
  · show "action_request" ∉ contentIntents content
    unfold contentIntents
    split <;> simp

/-- C6: the complexity classification computed by `analyzeContent` equals the
spec's formula applied to the analysis's own length, intent count, domain and
ambiguity-factor count — the code's extra `temporalAspect` term is always
zero because no `temporal_request` intent is ever produced. -/
theorem analyzeContent_complexity_matches_spec (content : String) :
    (analyzeContent content).complexity
      = specComplexity content.length (analyzeContent content).intents.length
          (analyzeContent content).domain (analyzeContent content).ambiguityFactors.length := by
  have htemp : ((contentIntents content).contains "temporal_request") = false := by
    unfold contentIntents
    split <;> rfl
  show contentComplexity content
    = specComplexity content.length (contentIntents content).length (contentDomain content)
        (contentAmbiguityFactors content).length
  unfold contentComplexity complexityScoreOf specComplexity specComplexityScore
  rw [htemp]
  norm_num

/-- C7: the text-analysis method is deterministic and side-effect-free — as a
call on the logger it returns equal analyses from any two receiver states and
leaves its receiver state unchanged. -/
theorem analyzeContent_deterministic_stateless (content : String) (s₁ s₂ : LoggerState) :
    (analyzeContentCall s₁ content).1 = (analyzeContentCall s₂ content).1
      ∧ (analyzeContentCall s₁ content).2 = s₁ :=
  ⟨rfl, rfl⟩

/-- C8: `updateInteractionPatterns` is a true shallow merge: starting from
any prior `InteractionPattern` state, the stored result takes each top-level
field from the patch when the patch carries it — the carried value replaces
the prior field wholesale, with no deep merge of its inner fields — and
retains the prior value for each field the patch omits. -/
theorem updateInteractionPatterns_shallow_merge (s : LoggerState)
    (prev patch : InteractionPattern) (now : Nat) :
    (updateInteractionPatterns { s with interactionPatterns := some prev }
          patch now).interactionPatterns
      = some
        { primaryIntent := jsSpreadField patch.primaryIntent prev.primaryIntent
          secondaryIntents := jsSpreadField patch.secondaryIntents prev.secondaryIntents
          contextualDomain := jsSpreadField patch.contextualDomain prev.contextualDomain
          knowledgeRequirements :=
            jsSpreadField patch.knowledgeRequirements prev.knowledgeRequirements
          interactionStyle := jsSpreadField patch.interactionStyle prev.interactionStyle
          userContext := jsSpreadField patch.userContext prev.userContext
          conversationDynamics :=
            jsSpreadField patch.conversationDynamics prev.conversationDynamics }
      ∧ (∀ v, patch.knowledgeRequirements = some v →
          jsSpreadField patch.knowledgeRequirements prev.knowledgeRequirements = some v)
      ∧ (patch.knowledgeRequirements = none →
          jsSpreadField patch.knowledgeRequirements prev.knowledgeRequirements
            = prev.knowledgeRequirements) := by
  refine ⟨?_, ?_, ?_⟩
  · show (logInteraction _ _ _ _).interactionPatterns = _
    unfold logInteraction
    rw [addEvent_frame]
    rfl
  · intro v hv
    simp [jsSpreadField, hv]
  · intro hnone
    simp [jsSpreadField, hnone]

/-- C9: in both transcript-provider variants, inserting a message whose
explicit (non-empty) `itemId` already occurs in the transcript is rejected:
the resulting transcript equals the prior one — so the original item is
unchanged and nothing is appended — and the duplicate is reported by a
single console *warning*, never an error. -/
theorem addTranscriptMessage_duplicate_rejected (msg : TranscriptMessageInput)
    (id : String) (prev : List TranscriptItem) (now : Int) (timestampStr : String)
    (counter : Nat) (uuid₁ uuid₂ uuid : String) (nowLate : Int)
    (hid : msg.itemId = some id) (hne : id ≠ "")
    (hmem : ∃ item ∈ prev, item.itemId = id) :
    addTranscriptMessageRich msg now timestampStr counter uuid₁ uuid₂ nowLate prev
        = (prev, [(ConsoleLevel.warn, "Message with ID " ++ id ++ " already exists:")])
      ∧ addTranscriptMessageSimple msg uuid timestampStr now prev
        = (prev, [(ConsoleLevel.warn, "Message with ID " ++ id ++ " already exists")]) := by
  have hany : prev.any (fun item => some item.itemId == msg.itemId) = true := by
    rw [hid]
    apply List.any_eq_true.mpr
    obtain ⟨item, hitem, hids⟩ := hmem
    exact ⟨item, hitem, by simp [hids]⟩
  have htruthy : jsTruthy msg.itemId = true := by
    rw [hid]
    simp [jsTruthy, hne]
  have hor : jsOrStr msg.itemId "" = id := by
    rw [hid]
    simp [jsOrStr, hne]
  constructor
  · simp only [addTranscriptMessageRich, htruthy, hany, Bool.and_self, if_true, hor]
  · simp only [addTranscriptMessageSimple, htruthy, hany, Bool.and_self, if_true, hor]

/-- Witness for C9 at a concrete duplicate insert. -/
theorem addTranscriptMessage_duplicate_rejected_witness :
    addTranscriptMessageRich
        { role := "user", content := "hi", itemId := some "m1", isHidden := none }
        100 "t" 1 "u1" "u2" 101
        [{ itemId := "m1", type := ItemType.message, role := "user", title := some "old",
           expanded := false, timestamp := "t0", createdAtMs := 50,
           status := ItemStatus.inProgress, isHidden := false }]
        = ([{ itemId := "m1", type := ItemType.message, role := "user", title := some "old",
              expanded := false, timestamp := "t0", createdAtMs := 50,
              status := ItemStatus.inProgress, isHidden := false }],
           [(ConsoleLevel.warn, "Message with ID " ++ "m1" ++ " already exists:")])
      ∧ addTranscriptMessageSimple
          { role := "user", content := "hi", itemId := some "m1", isHidden := none }
          "u3" "t" 100
          [{ itemId := "m1", type := ItemType.message, role := "user", title := some "old",
             expanded := false, timestamp := "t0", createdAtMs := 50,
             status := ItemStatus.inProgress, isHidden := false }]
        = ([{ itemId := "m1", type := ItemType.message, role := "user", title := some "old",
              expanded := false, timestamp := "t0", createdAtMs := 50,
              status := ItemStatus.inProgress, isHidden := false }],
           [(ConsoleLevel.warn, "Message with ID " ++ "m1" ++ " already exists")]) :=
  addTranscriptMessage_duplicate_rejected
    { role := "user", content := "hi", itemId := some "m1", isHidden := none }
    "m1"
    [{ itemId := "m1", type := ItemType.message, role := "user", title := some "old",
       expanded := false, timestamp := "t0", createdAtMs := 50,
       status := ItemStatus.inProgress, isHidden := false }]
    100 "t" 1 "u1" "u2" "u3" 101 rfl (by decide) (by decide)

end RealtimeAgents
